import Mathlib

/-!
Verification development for the story/image acquisition pipeline of the
Youtube-Automation-pipeline repository.  The definitions below are a shallow
embedding of `src/generators/story_generator.py` and
`src/services/main_generator.py`: Python strings become `List Char` (wrapped
in `String` at the interface), the regular-expression substitutions used by
the code are modelled by explicit scanning functions with the same
leftmost / non-greedy semantics, and the streaming / retry control loops
become pure functions over explicit state.
-/

namespace Pipeline

/-! ### Basic character/string utilities mirroring Python primitives -/

/-- Python `str` whitespace characters (`str.strip()` / `str.split()` default set,
restricted to ASCII, which is all the pipeline ever produces). -/
def isPySpace (c : Char) : Bool :=
  c = ' ' || c = '\t' || c = '\n' || c = '\r' || c = Char.ofNat 11 || c = Char.ofNat 12

/-- ASCII lowercasing of one character, as Python `str.lower()` does on ASCII. -/
def lowerChar (c : Char) : Char :=
  if 'A' ≤ c ∧ c ≤ 'Z' then Char.ofNat (c.toNat + 32) else c

/-- Python `s.lower()` on the character list. -/
def lowerL (l : List Char) : List Char := l.map lowerChar

/-- Boolean "is this list a leading segment of that one" (used for Python
`str.startswith` and as the inner step of substring search). -/
def startsWithB : List Char → List Char → Bool
  | [], _ => true
  | _ :: _, [] => false
  | a :: as, b :: bs => a = b && startsWithB as bs

/-- Python `s.endswith(pat)`. -/
def endsWithB (pat l : List Char) : Bool := startsWithB pat.reverse l.reverse

/-- Python `pat in s` substring containment. -/
def containsSub (pat : List Char) : List Char → Bool
  | [] => startsWithB pat []
  | l@(_ :: rest) => startsWithB pat l || containsSub pat rest

/-- Python `pat in s` on `String`s. -/
def strContains (pat s : String) : Bool := containsSub pat.data s.data

/-- Drop a literal pattern from the front, if present (`none` if it does not start there). -/
def dropLit : List Char → List Char → Option (List Char)
  | [], l => some l
  | _ :: _, [] => none
  | p :: ps, c :: cs => if c = p then dropLit ps cs else none

/-- The remainder after the first occurrence of `pat` (leftmost, Python
`s.split(pat)[1] ++ pat ++ ...` tail), `none` if `pat` never occurs. -/
def afterFirst (pat : List Char) : List Char → Option (List Char)
  | [] => dropLit pat []
  | l@(_ :: rest) =>
    match dropLit pat l with
    | some r => some r
    | none => afterFirst pat rest

/-- Everything before the first occurrence of `pat` (the whole list when absent). -/
def beforeFirst (pat : List Char) : List Char → List Char
  | [] => []
  | l@(c :: rest) =>
    match dropLit pat l with
    | some _ => []
    | none => c :: beforeFirst pat rest

/-- Python `line.split(pat)[1]`: the text after the first occurrence of `pat`
and before its next occurrence (only used under a `pat in line` guard). -/
def betweenFirst (pat l : List Char) : List Char :=
  match afterFirst pat l with
  | some r => beforeFirst pat r
  | none => []

/-- Python `line.split(':', 1)`: the part after the first colon, when a colon exists. -/
def afterFirstColon (l : List Char) : Option (List Char) := afterFirst [':'] l

/-- Strip characters satisfying `p` from both ends (Python `str.strip` family). -/
def stripChars (p : Char → Bool) (l : List Char) : List Char :=
  ((l.dropWhile p).reverse.dropWhile p).reverse

/-- Python `line.strip()`. -/
def stripWs (l : List Char) : List Char := stripChars isPySpace l

/-- Python `line.strip('* ')`. -/
def stripStarSpace (l : List Char) : List Char :=
  stripChars (fun c => c = '*' || c = ' ') l

/-- Split on newline characters (Python `raw_text.split('\n')`). -/
def splitLines : List Char → List (List Char)
  | [] => [[]]
  | c :: rest =>
    if c = '\n' then [] :: splitLines rest
    else
      match splitLines rest with
      | [] => [[c]]
      | l :: ls => (c :: l) :: ls

/-- Accumulate maximal whitespace-free words (helper for Python `s.split()`). -/
def wordsAux (cur : List Char) : List Char → List (List Char)
  | [] => if cur.isEmpty then [] else [cur.reverse]
  | c :: rest =>
    if isPySpace c then
      if cur.isEmpty then wordsAux [] rest else cur.reverse :: wordsAux [] rest
    else wordsAux (c :: cur) rest

/-- Python `s.split()` (whitespace runs, empty pieces discarded). -/
def wordsOf (l : List Char) : List (List Char) := wordsAux [] l

/-- Python `' '.join(s.split())`: collapse all whitespace runs to single spaces. -/
def normalizeWs (l : List Char) : List Char := List.intercalate [' '] (wordsOf l)

/-! ### Regular-expression substitutions as scanning functions

Each `re.sub(pattern, repl, s)` in `collect_complete_story` is modelled by a
scanner over the character list: at each position the matcher either consumes
a leftmost match (emitting its replacement) or the scanner emits one character
and retries at the next position — exactly `re.sub`'s leftmost,
non-overlapping strategy.  The scanners are structurally recursive on a fuel
argument (wrappers pass the input length, which bounds the number of steps,
so the fuel never runs out on the wrapped calls). -/

/-- Generic `re.sub` scanner: `m l` returns `some (replacement, remainder)` when a
match begins at the head of `l`.  Every matcher used below consumes at least
one character on success. -/
def scanRepl (m : List Char → Option (List Char × List Char)) :
    Nat → List Char → List Char
  | 0, l => l
  | _ + 1, [] => []
  | fuel + 1, l@(c :: rest) =>
    match m l with
    | some (out, after) => out ++ scanRepl m fuel after
    | none => c :: scanRepl m fuel rest

/-- Find the first occurrence of `pat` without crossing a newline; returns the
text before it and the remainder after it (models `.*?pat` without `re.DOTALL`). -/
def splitAtSameLine (pat : List Char) : List Char → Option (List Char × List Char)
  | [] => match dropLit pat [] with
          | some r => some ([], r)
          | none => none
  | l@(c :: rest) =>
    match dropLit pat l with
    | some r => some ([], r)
    | none =>
      if c = '\n' then none
      else
        match splitAtSameLine pat rest with
        | some (b, a) => some (c :: b, a)
        | none => none

/-- Find the first occurrence of `pat` anywhere (models `.*?pat` with `re.DOTALL`);
returns the remainder after the occurrence. -/
def afterAnywhere (pat : List Char) : List Char → Option (List Char)
  | [] => dropLit pat []
  | l@(_ :: rest) =>
    match dropLit pat l with
    | some r => some r
    | none => afterAnywhere pat rest

/-- Consume up to and including the next newline, or everything when there is
none (models `.*?(\n|$)` without `re.DOTALL`). -/
def dropToEOL : List Char → List Char
  | [] => []
  | c :: rest => if c = '\n' then rest else dropToEOL rest

/-- Matcher for `\*\*Scene \d+:?\*\*` (greedy digit run, optional colon). -/
def matchSceneBold (l : List Char) : Option (List Char × List Char) :=
  match dropLit "**Scene ".data l with
  | none => none
  | some r1 =>
    let digits := r1.takeWhile (·.isDigit)
    if digits.isEmpty then none
    else
      match r1.drop digits.length with
      | ':' :: r2 =>
        (match dropLit "**".data r2 with
         | some r3 => some ([], r3)
         | none => none)
      | r2 =>
        (match dropLit "**".data r2 with
         | some r3 => some ([], r3)
         | none => none)

/-- Matcher for `\*\*(.*?)\*\*` with the inner text as replacement (no DOTALL:
the pair must close on the same line). -/
def matchBoldKeep (l : List Char) : Option (List Char × List Char) :=
  match dropLit "**".data l with
  | none => none
  | some r1 => splitAtSameLine "**".data r1

/-- Matcher for `\*\*.*?\*\*` dropping the whole match (the raw-text fallback sub). -/
def matchBoldDrop (l : List Char) : Option (List Char × List Char) :=
  match dropLit "**".data l with
  | none => none
  | some r1 =>
    match splitAtSameLine "**".data r1 with
    | some (_, a) => some ([], a)
    | none => none

/-- Matcher for `#+ ` (a run of hashes immediately followed by a space). -/
def matchHashSpace (l : List Char) : Option (List Char × List Char) :=
  let run := l.takeWhile (· = '#')
  if run.isEmpty then none
  else
    match l.drop run.length with
    | ' ' :: r => some ([], r)
    | _ => none

/-- Matcher for `\*\*[Ii]mage:?\*\*.*?(\n|$)`. -/
def matchBoldImageEOL (l : List Char) : Option (List Char × List Char) :=
  match dropLit "**".data l with
  | none => none
  | some r1 =>
    match r1 with
    | c :: r2 =>
      if c = 'I' || c = 'i' then
        match dropLit "mage".data r2 with
        | none => none
        | some r3 =>
          match r3 with
          | ':' :: r4 =>
            (match dropLit "**".data r4 with
             | some r5 => some ([], dropToEOL r5)
             | none =>
               match dropLit "**".data (':' :: r4) with
               | some r5 => some ([], dropToEOL r5)
               | none => none)
          | r4 =>
            (match dropLit "**".data r4 with
             | some r5 => some ([], dropToEOL r5)
             | none => none)
      else none
    | [] => none

/-- Matcher for `[Ii]mage:.*?(\n|$)`. -/
def matchImageColonEOL (l : List Char) : Option (List Char × List Char) :=
  match l with
  | c :: r1 =>
    if c = 'I' || c = 'i' then
      match dropLit "mage:".data r1 with
      | some r2 => some ([], dropToEOL r2)
      | none => none
    else none
  | [] => none

/-- Matcher for the markdown image pattern `!\[.*?\]\(.*?\)`. -/
def matchMdImage (l : List Char) : Option (List Char × List Char) :=
  match dropLit "![".data l with
  | none => none
  | some r1 =>
    match splitAtSameLine "](".data r1 with
    | none => none
    | some (_, r2) =>
      match splitAtSameLine ")".data r2 with
      | none => none
      | some (_, r3) => some ([], r3)

/-- Matcher for `\(Image of .*?\)`. -/
def matchImageOf (l : List Char) : Option (List Char × List Char) :=
  match dropLit "(Image of ".data l with
  | none => none
  | some r1 =>
    match splitAtSameLine ")".data r1 with
    | none => none
    | some (_, r2) => some ([], r2)

/-- Matcher for `Scene \d+:`. -/
def matchSceneLabel (l : List Char) : Option (List Char × List Char) :=
  match dropLit "Scene ".data l with
  | none => none
  | some r1 =>
    let digits := r1.takeWhile (·.isDigit)
    if digits.isEmpty then none
    else
      match r1.drop digits.length with
      | ':' :: r2 => some ([], r2)
      | _ => none

/-- Matcher for triple-backtick fenced blocks with DOTALL inner text. -/
def matchCodeFence (l : List Char) : Option (List Char × List Char) :=
  match dropLit "```".data l with
  | none => none
  | some r1 =>
    match afterAnywhere "```".data r1 with
    | some r2 => some ([], r2)
    | none => none

def removeSceneBoldL (l : List Char) : List Char := scanRepl matchSceneBold l.length l
def unboldKeepL (l : List Char) : List Char := scanRepl matchBoldKeep l.length l
def removeBoldDropL (l : List Char) : List Char := scanRepl matchBoldDrop l.length l
def removeHashSpaceL (l : List Char) : List Char := scanRepl matchHashSpace l.length l
def removeBoldImageEOL (l : List Char) : List Char := scanRepl matchBoldImageEOL l.length l
def removeImageColonEOL (l : List Char) : List Char := scanRepl matchImageColonEOL l.length l
def removeMdImageL (l : List Char) : List Char := scanRepl matchMdImage l.length l
def removeImageOfL (l : List Char) : List Char := scanRepl matchImageOf l.length l
def removeSceneLabelL (l : List Char) : List Char := scanRepl matchSceneLabel l.length l
def removeCodeBlocksL (l : List Char) : List Char := scanRepl matchCodeFence l.length l

/-- Python `s.replace('*', '')`. -/
def removeStars (l : List Char) : List Char := l.filter (fun c => !(c = '*'))

/-- `re.sub(r'.*?[Ii]mage [Pp]rompt:.*?(\n|$)', '', s)`: because of the `.*?`
prefix (which cannot cross a newline) every line containing an
`image prompt:` marker — with exactly those four capitalisations admitted by
the character classes — is deleted together with its trailing newline. -/
def lineHasImagePromptMarker (l : List Char) : Bool :=
  containsSub "Image Prompt:".data l || containsSub "Image prompt:".data l ||
  containsSub "image Prompt:".data l || containsSub "image prompt:".data l

/-- Reassemble lines after deleting marked ones: a deleted line takes its
trailing newline with it (the final line has none). -/
def joinSurvivingLines (bad : List Char → Bool) : List (List Char) → List Char
  | [] => []
  | [x] => if bad x then [] else x
  | x :: xs =>
    (if bad x then [] else x ++ ['\n']) ++ joinSurvivingLines bad xs

def removeImagePromptLines (l : List Char) : List Char :=
  joinSurvivingLines lineHasImagePromptMarker (splitLines l)

/-! ### Completeness Evaluator: `collect_complete_story`
(`src/generators/story_generator.py`, lines 221-434) -/

/-- State threaded through the tier-1/tier-2 line loops: collected segments,
the segment under construction (`current_segment`) and the
`in_story_section` flag. -/
structure TierState where
  segs : List (List Char)
  cur : List Char
  inStory : Bool

/-- `current_segment += ' '` (when non-empty) `+= piece`. -/
def appendPiece (cur piece : List Char) : List Char :=
  (if cur.isEmpty then [] else cur ++ [' ']) ++ piece

/-- One line of the tier-1 (explicit `**Story:**` / `**Scene` markers) loop
(`story_generator.py` lines 245-284). -/
def tier1Line (st : TierState) (line0 : List Char) : TierState :=
  let line := stripWs line0
  if line.isEmpty then st
  else if containsSub "**Image Prompt:**".data line then st
  else if containsSub "**Story:**".data line then
    let t := stripWs (betweenFirst "**Story:**".data line)
    { st with inStory := true, cur := if t.isEmpty then st.cur else t }
  else if st.inStory &&
      !(containsSub "**Scene".data line || containsSub "**Image:**".data line) then
    { st with cur := appendPiece st.cur (stripStarSpace line) }
  else if containsSub "**Scene".data line then
    { segs := if st.cur.isEmpty then st.segs else st.segs ++ [st.cur],
      cur := match afterFirstColon line with
             | some t => stripWs t
             | none => [],
      inStory := true }
  else if containsSub "**Image:**".data line then st
  else if st.inStory then
    { st with cur := appendPiece st.cur (stripStarSpace line) }
  else st

/-- One line of the tier-2 (`## Scene` / `# Scene` markdown headers) loop
(`story_generator.py` lines 289-311). -/
def tier2Line (st : TierState) (line0 : List Char) : TierState :=
  let line := stripWs line0
  if line.isEmpty then st
  else if startsWithB "## Scene".data line || startsWithB "# Scene".data line then
    { segs := if st.cur.isEmpty then st.segs else st.segs ++ [st.cur],
      cur := match afterFirstColon line with
             | some t => stripWs t
             | none => [],
      inStory := true }
  else if containsSub "image prompt".data (lowerL line) ||
      containsSub "image:".data (lowerL line) then st
  else if st.inStory then
    { st with cur := appendPiece st.cur (stripWs line) }
  else st

/-- One line of the tier-3 paragraph loop (`story_generator.py` lines 316-334):
state is (collected paragraphs, paragraph under construction). -/
def tier3Line (st : List (List Char) × List Char) (line0 : List Char) :
    List (List Char) × List Char :=
  let line := stripWs line0
  if containsSub "image prompt".data (lowerL line) ||
      containsSub "image:".data (lowerL line) then st
  else if line.isEmpty then
    (if st.2.isEmpty then st else (st.1 ++ [st.2], []))
  else (st.1, appendPiece st.2 line)

/-- The tier-4 keep filter (`story_generator.py` lines 345-358), applied to a
stripped non-empty line. -/
def tier4Keep (line : List Char) : Bool :=
  !(startsWithB "```".data line) && !(startsWithB "Image:".data line) &&
  !(containsSub "prompt".data (lowerL line)) &&
  !(startsWithB "#".data line && line.length < 30) &&
  !(startsWithB "**".data line && endsWithB "**".data line && line.length < 30)

/-- The raw `story_segments` produced by `collect_complete_story` before any
cleaning — this is exactly what `return_segments=True` returns
(`story_generator.py` lines 224-366, 413-414). -/
def storySegmentsL (raw : List Char) : List (List Char) :=
  let lines := splitLines raw
  if lines.any (fun l => containsSub "**Story:**".data l ||
      containsSub "**Scene".data l) then
    let st := lines.foldl tier1Line ⟨[], [], false⟩
    if st.cur.isEmpty then st.segs else st.segs ++ [st.cur]
  else if lines.any (fun l => containsSub "## Scene".data l ||
      containsSub "# Scene".data l) then
    let st := lines.foldl tier2Line ⟨[], [], false⟩
    if st.cur.isEmpty then st.segs else st.segs ++ [st.cur]
  else if lines.any (fun l => containsSub "story".data (lowerL l)) then
    let st := lines.foldl tier3Line ([], [])
    if st.2.isEmpty then st.1 else st.1 ++ [st.2]
  else
    let kept := (lines.map stripWs).filter (fun l => !l.isEmpty && tier4Keep l)
    if kept.isEmpty then [] else [List.intercalate [' '] kept]

/-- Segment-level cleaning (`story_generator.py` lines 376-384): strip
`**Scene N:**` markers, unwrap remaining bold pairs, drop stray `*` and strip
whitespace. -/
def cleanSegmentL (l : List Char) : List Char :=
  stripWs (removeStars (unboldKeepL (removeSceneBoldL l)))

/-- Global cleaning of the joined story (`story_generator.py` lines 394-405). -/
def globalCleanL (l : List Char) : List Char :=
  normalizeWs (removeCodeBlocksL (removeSceneLabelL (removeImageOfL (removeMdImageL
    (removeImageColonEOL (removeBoldImageEOL (removeImagePromptLines
      (removeHashSpaceL l))))))))

/-- The raw-input fallback (`story_generator.py` lines 420-423): drop bold
pairs entirely, drop fenced code blocks, collapse whitespace. -/
def fallbackCleanL (raw : List Char) : List Char :=
  normalizeWs (removeCodeBlocksL (removeBoldDropL raw))

/-- The full-text result of `collect_complete_story(raw, return_segments=False)`
(`story_generator.py` lines 368-425, non-exceptional path). -/
def collectCompleteStoryL (raw : List Char) : List Char :=
  let segs := storySegmentsL raw
  let cleaned := (segs.map cleanSegmentL).filter (fun s => !s.isEmpty)
  let complete := globalCleanL (List.intercalate [' '] cleaned)
  if (stripWs complete).isEmpty then fallbackCleanL raw else complete

/-- `collect_complete_story(raw, return_segments=True)` on `String`s. -/
def collect_complete_story_segments (raw : String) : List String :=
  (storySegmentsL raw.data).map (fun l => ⟨l⟩)

/-- `collect_complete_story(raw)` (full cleaned text) on `String`s. -/
def collect_complete_story (raw : String) : String :=
  ⟨collectCompleteStoryL raw.data⟩

/-- The segment-level cleaner on `String`s. -/
def cleanSegment (s : String) : String := ⟨cleanSegmentL s.data⟩

/-- The raw-input fallback cleaner on `String`s. -/
def fallbackClean (s : String) : String := ⟨fallbackCleanL s.data⟩

/-! ### Stream Consumer (`src/services/main_generator.py`, lines 157-278)

One streamed chunk, normalised into the shapes the per-chunk `try` body of
`generate` distinguishes.  A chunk on which the body raises
`json.decoder.JSONDecodeError` is `decodeErrorChunk` (carrying the raw text of
`chunk._response.text` when that attribute chain exists); a chunk on which it
raises any other exception is `processErrorChunk` (skipped). -/
inductive StreamUnit where
  | rawString (s : String)
  | chunkNoCandidates (text : Option String)
  | chunkEmptyContent (text : Option String)
  | imagePart (mime : String)
  | textPart (s : String)
  | otherPart
  | decodeErrorChunk (raw : Option String)
  | processErrorChunk
  deriving DecidableEq, Repr

/-- The literal degraded-mode marker scanned for in every text chunk. -/
def imgDescMarker : String := "**Image Description:**"

/-- The mutable loop state of the streaming section of `generate`
(`main_generator.py` lines 157-166). -/
structure StreamState where
  story_text : String
  image_files : List String
  json_errors : Nat
  image_found : Bool
  contains_image_description : Bool
  aborted : Bool
  deriving DecidableEq, Repr

def initStreamState : StreamState :=
  { story_text := "", image_files := [], json_errors := 0,
    image_found := false, contains_image_description := false, aborted := false }

/-- `max_json_errors = 5` (`main_generator.py` line 163). -/
def max_json_errors : Nat := 5

/-- Append chunk text to the accumulated story and scan it for the
image-description marker (the repeated three-line motif of the loop body). -/
def addText (st : StreamState) (s : String) : StreamState :=
  if s ≠ "" then
    { st with story_text := st.story_text ++ s,
              contains_image_description :=
                st.contains_image_description || strContains imgDescMarker s }
  else st

/-- The sequential image filename `image_{n}.jpg` (`main_generator.py` line 209). -/
def imageFileName (n : Nat) : String := "image_" ++ toString n ++ ".jpg"

/-- One iteration of the `for chunk in stream` body
(`main_generator.py` lines 169-241). -/
def processUnit (st : StreamState) (u : StreamUnit) : StreamState :=
  match u with
  | .rawString s => addText st s
  | .chunkNoCandidates t | .chunkEmptyContent t =>
    (match t with
     | some s => addText st s
     | none => st)
  | .imagePart _ =>
    { st with image_found := true,
              image_files := st.image_files ++ [imageFileName st.image_files.length] }
  | .textPart s => addText st s
  | .otherPart => st
  | .decodeErrorChunk raw =>
    let st := { st with json_errors := st.json_errors + 1 }
    if max_json_errors ≤ st.json_errors then
      let st :=
        match raw with
        | some r => { st with story_text := st.story_text ++ String.mk (removeCodeBlocksL r.data) }
        | none => st
      { st with aborted := true }
    else st
  | .processErrorChunk => st

/-- Consume the stream until exhaustion or the `break` on the decode-error
threshold. -/
def consumeStream (st : StreamState) : List StreamUnit → StreamState
  | [] => st
  | u :: us => if st.aborted then st else consumeStream (processUnit st u) us

/-- Outcome of the whole streaming section: final state plus whether the
non-streaming fallback request of the `except` handler at
`main_generator.py` lines 242-261 was issued.  `raiseAfter` records whether
the stream iterator itself raised after yielding `units`; that `except` branch
is the only in-loop path that calls the fallback, and it fires only when no
story text was salvaged and at least one decode error occurred. -/
structure StreamOutcome where
  state : StreamState
  fallback_invoked : Bool
  deriving DecidableEq, Repr

def runStreamPhase (units : List StreamUnit) (raiseAfter : Bool) : StreamOutcome :=
  let st := consumeStream initStreamState units
  if raiseAfter && !st.aborted then
    { state := st,
      fallback_invoked := (stripWs st.story_text.data).isEmpty && 0 < st.json_errors }
  else { state := st, fallback_invoked := false }

/-- The restart decision after the stream completes (`main_generator.py`
lines 271-275): `generate` recursively restarts itself exactly when the
`contains_image_description` flag was set by some chunk. -/
def restartsGeneration (units : List StreamUnit) : Bool :=
  let st := consumeStream initStreamState units
  if !st.image_found || st.contains_image_description then
    st.contains_image_description
  else false

/-! ### Retry loop of `retry_story_generation`
(`src/generators/story_generator.py`, lines 196-219) -/

/-- The result record built by `generation_wrapper` (`story_generator.py`
lines 184-189); `temp_dir` is carried but never examined by the loop. -/
structure GenResult where
  story_text : String
  image_files : List String
  temp_dir : String
  contains_image_description : Bool
  deriving DecidableEq, Repr

/-- The truthiness test of the loop on an actual result record
(`story_generator.py` line 209): `result["story_text"]` is truthy and
`len(result["image_files"]) >= 4`. -/
def retrySuccessG (g : GenResult) : Bool :=
  g.story_text ≠ "" && 4 ≤ g.image_files.length

/-- The full acceptance test of the loop (`story_generator.py` line 209):
`result and result["story_text"] and len(result["image_files"]) >= 4`. -/
def retrySuccessO : Option GenResult → Bool
  | some g => retrySuccessG g
  | none => false

/-- `max_retries = 5`, `retry_delay = 7` (`story_generator.py` lines 197-199). -/
def max_retries : Nat := 5
def retry_delay : Nat := 7

/-- The `while retry_count < max_retries` loop, threading the outcomes of the
successive `generation_wrapper` calls; returns (returned value, attempts made,
total time slept).  A 7-unit sleep happens after each failed attempt except
the last (`if retry_count < max_retries`). -/
def retryAux : List (Option GenResult) → Nat → Nat → Option GenResult × Nat × Nat
  | [], used, slept => (none, used, slept)
  | r :: rest, used, slept =>
    if retrySuccessO r then (r, used + 1, slept)
    else retryAux rest (used + 1) (slept + if rest.isEmpty then 0 else retry_delay)

/-- `retry_story_generation`, abstracted over the outcome of each
`generation_wrapper` call (`f k` = outcome of call `k`). -/
def retry_story_generation (f : Nat → Option GenResult) :
    Option GenResult × Nat × Nat :=
  retryAux ((List.range max_retries).map f) 0 0

/-! ### Regeneration/Retry Orchestrator predicates and update
(`src/services/main_generator.py`, lines 299-396) -/

/-- `min_segments = 6` (`main_generator.py` line 301). -/
def min_segments : Nat := 6

/-- `needs_regeneration = (segments_count < min_segments) or
(images_count < segments_count)` (`main_generator.py` line 304). -/
def needsRegeneration (segments_count images_count : Nat) : Bool :=
  segments_count < min_segments || images_count < segments_count

/-- The primary acceptance predicate: the negation of `needsRegeneration`. -/
def primaryAccept (segments_count images_count : Nat) : Bool :=
  !needsRegeneration segments_count images_count

/-- The retry-loop acceptance check (`main_generator.py` line 383):
`segments_count >= min_segments and images_count >= segments_count * 0.8`.
The float comparison `images_count >= segments_count * 0.8` is modelled by the
exact rational test `4 * segments_count <= 5 * images_count`; for every
segment count below `2^52` the IEEE-double evaluation of
`segments_count * 0.8` rounds to a value whose integer comparisons agree with
the rational one, so the two tests coincide on all reachable counts. -/
def retryAccept (segments_count images_count : Nat) : Bool :=
  min_segments ≤ segments_count && 4 * segments_count ≤ 5 * images_count

/-- The state the regeneration loop mutates. -/
structure RegenState where
  story_text : String
  image_files : List String
  needs_regeneration : Bool
  deriving DecidableEq, Repr

/-- One evaluation of a retry attempt inside the regeneration loop
(`main_generator.py` lines 374-396): when the retry produced text, its
segments are recounted with the Completeness Evaluator and, if the 6-segment /
80%-coverage check passes, the story text is replaced and the image list is
replaced only when the retry produced at least one image. -/
def regenStep (st : RegenState) (retryText : String) (retryImages : List String) :
    RegenState :=
  if retryText ≠ "" then
    let segments_count := (collect_complete_story_segments retryText).length
    let images_count := retryImages.length
    if retryAccept segments_count images_count then
      { story_text := retryText,
        image_files := if retryImages.isEmpty then st.image_files else retryImages,
        needs_regeneration := false }
    else st
  else st

/-! ### Helper lemmas -/

theorem mem_dropWhile {x : Char} {p : Char → Bool} :
    ∀ {l : List Char}, x ∈ l.dropWhile p → x ∈ l := by
  intro l h
  induction l with
  | nil => simp at h
  | cons c rest ih =>
    rw [List.dropWhile_cons] at h
    by_cases hc : p c = true
    · simp only [hc, if_true] at h
      exact List.mem_cons_of_mem _ (ih h)
    · simp only [hc, if_false] at h
      exact h

theorem mem_stripChars {x : Char} {p : Char → Bool} {l : List Char}
    (h : x ∈ stripChars p l) : x ∈ l := by
  unfold stripChars at h
  rw [List.mem_reverse] at h
  have h1 := mem_dropWhile h
  rw [List.mem_reverse] at h1
  exact mem_dropWhile h1

theorem dropWhile_head_false {p : Char → Bool} :
    ∀ {l : List Char} {c : Char} {t : List Char},
      l.dropWhile p = c :: t → p c = false := by
  intro l
  induction l with
  | nil => intro c t h; simp at h
  | cons a rest ih =>
    intro c t h
    rw [List.dropWhile_cons] at h
    by_cases ha : p a = true
    · rw [if_pos ha] at h; exact ih h
    · rw [if_neg ha] at h
      cases h
      simpa using ha

theorem dropWhile_eq_self_of_head {p : Char → Bool} :
    ∀ {l : List Char}, (∀ c t, l = c :: t → p c = false) → l.dropWhile p = l := by
  intro l h
  cases l with
  | nil => rfl
  | cons c t => rw [List.dropWhile_cons, h c t rfl]; simp

theorem dropWhile_dropWhile (p : Char → Bool) (m : List Char) :
    (m.dropWhile p).dropWhile p = m.dropWhile p := by
  apply dropWhile_eq_self_of_head
  intro c t h
  exact dropWhile_head_false h

theorem stripChars_head_ok (p : Char → Bool) (l : List Char) :
    (stripChars p l).dropWhile p = stripChars p l := by
  apply dropWhile_eq_self_of_head
  intro c t h
  have hsplit : l.dropWhile p
      = ((l.dropWhile p).reverse.dropWhile p).reverse
        ++ ((l.dropWhile p).reverse.takeWhile p).reverse := by
    rw [← List.reverse_append, List.takeWhile_append_dropWhile, List.reverse_reverse]
  unfold stripChars at h
  rw [h] at hsplit
  exact dropWhile_head_false hsplit

theorem stripChars_idem (p : Char → Bool) (l : List Char) :
    stripChars p (stripChars p l) = stripChars p l := by
  have h1 := stripChars_head_ok p l
  show ((((stripChars p l).dropWhile p).reverse).dropWhile p).reverse = stripChars p l
  rw [h1]
  unfold stripChars
  rw [List.reverse_reverse, dropWhile_dropWhile]

theorem scanRepl_id_of_no_star (m : List Char → Option (List Char × List Char))
    (hm : ∀ c rest, c ≠ '*' → m (c :: rest) = none) :
    ∀ (fuel : Nat) (l : List Char), '*' ∉ l → scanRepl m fuel l = l := by
  intro fuel
  induction fuel with
  | zero => intro l _; rfl
  | succ n ih =>
    intro l hl
    cases l with
    | nil => rfl
    | cons c rest =>
      have hc : c ≠ '*' := fun h => hl (h ▸ List.mem_cons_self c rest)
      have hrest : '*' ∉ rest := fun h => hl (List.mem_cons_of_mem c h)
      simp only [scanRepl, hm c rest hc]
      rw [ih rest hrest]

theorem matchSceneBold_no_star (c : Char) (rest : List Char) (hc : c ≠ '*') :
    matchSceneBold (c :: rest) = none := by
  have h : "**Scene ".data = '*' :: "*Scene ".data := rfl
  simp only [matchSceneBold, h, dropLit, if_neg hc]

theorem matchBoldKeep_no_star (c : Char) (rest : List Char) (hc : c ≠ '*') :
    matchBoldKeep (c :: rest) = none := by
  have h : "**".data = '*' :: "*".data := rfl
  simp only [matchBoldKeep, h, dropLit, if_neg hc]

theorem no_star_removeStars (l : List Char) : '*' ∉ removeStars l := by
  intro h
  have := List.mem_filter.mp h
  simp at this

theorem removeStars_id_of_no_star {l : List Char} (h : '*' ∉ l) :
    removeStars l = l := by
  apply List.filter_eq_self.mpr
  intro a ha
  simp only [Bool.not_eq_true']
  exact decide_eq_false (fun he => h (he ▸ ha))

theorem cleanSegmentL_no_star (l : List Char) : '*' ∉ cleanSegmentL l := by
  intro h
  exact no_star_removeStars _ (mem_stripChars h)

/-- Claim C6 core: the segment cleaning is idempotent at the character-list level. -/
theorem cleanSegmentL_idem (l : List Char) :
    cleanSegmentL (cleanSegmentL l) = cleanSegmentL l := by
  have hstar := cleanSegmentL_no_star l
  set r := cleanSegmentL l with hr
  show stripWs (removeStars (unboldKeepL (removeSceneBoldL r))) = r
  unfold removeSceneBoldL unboldKeepL
  rw [scanRepl_id_of_no_star matchSceneBold matchSceneBold_no_star _ _ hstar]
  rw [scanRepl_id_of_no_star matchBoldKeep matchBoldKeep_no_star _ _ hstar]
  rw [removeStars_id_of_no_star hstar]
  rw [hr]
  exact stripChars_idem isPySpace (removeStars (unboldKeepL (removeSceneBoldL l)))

/-! ### Stream-consumer lemmas -/

/-- The text the per-chunk marker scan inspects (if any). -/
def unitText : StreamUnit → Option String
  | .rawString s => some s
  | .chunkNoCandidates (some s) => some s
  | .chunkEmptyContent (some s) => some s
  | .textPart s => some s
  | _ => none

/-- Whether a single chunk's own text contains the image-description marker. -/
def unitMarker (u : StreamUnit) : Bool :=
  match unitText u with
  | some s => strContains imgDescMarker s
  | none => false

def isDecodeError : StreamUnit → Bool
  | .decodeErrorChunk _ => true
  | _ => false

theorem strContains_empty : strContains imgDescMarker "" = false := by decide

theorem addText_flag (st : StreamState) (s : String) :
    (addText st s).contains_image_description
      = (st.contains_image_description || strContains imgDescMarker s) := by
  unfold addText
  by_cases h : s = ""
  · subst h
    simp [strContains_empty]
  · rw [if_pos h]

theorem addText_aborted (st : StreamState) (s : String) :
    (addText st s).aborted = st.aborted := by
  unfold addText
  by_cases h : s = ""
  · simp [h]
  · rw [if_pos h]

theorem processUnit_flag (st : StreamState) (u : StreamUnit)
    (hu : isDecodeError u = false) :
    (processUnit st u).contains_image_description
      = (st.contains_image_description || unitMarker u) := by
  cases u with
  | rawString s => exact addText_flag st s
  | chunkNoCandidates t => cases t with
    | some s => exact addText_flag st s
    | none => simp [processUnit, unitMarker, unitText]
  | chunkEmptyContent t => cases t with
    | some s => exact addText_flag st s
    | none => simp [processUnit, unitMarker, unitText]
  | imagePart m => simp [processUnit, unitMarker, unitText]
  | textPart s => exact addText_flag st s
  | otherPart => simp [processUnit, unitMarker, unitText]
  | decodeErrorChunk raw => simp [isDecodeError] at hu
  | processErrorChunk => simp [processUnit, unitMarker, unitText]

theorem processUnit_aborted (st : StreamState) (u : StreamUnit)
    (hu : isDecodeError u = false) :
    (processUnit st u).aborted = st.aborted := by
  cases u with
  | rawString s => exact addText_aborted st s
  | chunkNoCandidates t => cases t with
    | some s => exact addText_aborted st s
    | none => rfl
  | chunkEmptyContent t => cases t with
    | some s => exact addText_aborted st s
    | none => rfl
  | imagePart m => rfl
  | textPart s => exact addText_aborted st s
  | otherPart => rfl
  | decodeErrorChunk raw => simp [isDecodeError] at hu
  | processErrorChunk => rfl

theorem consume_flag_of_clean :
    ∀ (units : List StreamUnit) (st : StreamState),
      (∀ u ∈ units, isDecodeError u = false) → st.aborted = false →
      (consumeStream st units).contains_image_description
          = (st.contains_image_description || units.any unitMarker)
        ∧ (consumeStream st units).aborted = false := by
  intro units
  induction units with
  | nil => intro st _ ha; simp [consumeStream, ha]
  | cons u us ih =>
    intro st h ha
    have hu : isDecodeError u = false := h u (List.mem_cons_self u us)
    have hus : ∀ v ∈ us, isDecodeError v = false :=
      fun v hv => h v (List.mem_cons_of_mem u hv)
    have ha' : (processUnit st u).aborted = false := by
      rw [processUnit_aborted st u hu]; exact ha
    have step : consumeStream st (u :: us) = consumeStream (processUnit st u) us := by
      simp [consumeStream, ha]
    rw [step]
    obtain ⟨h1, h2⟩ := ih (processUnit st u) hus ha'
    refine ⟨?_, h2⟩
    rw [h1, processUnit_flag st u hu]
    simp [Bool.or_assoc]

theorem consume_of_aborted (st : StreamState) (h : st.aborted = true) :
    ∀ units, consumeStream st units = st := by
  intro units
  cases units with
  | nil => rfl
  | cons u us => simp [consumeStream, h]

theorem consume_append (a b : List StreamUnit) :
    ∀ st, consumeStream st (a ++ b) = consumeStream (consumeStream st a) b := by
  induction a with
  | nil => intro st; rfl
  | cons u a' ih =>
    intro st
    by_cases h : st.aborted = true
    · rw [consume_of_aborted st h, consume_of_aborted st h, consume_of_aborted st h]
    · have h' : st.aborted = false := by simpa using h
      simp only [List.cons_append, consumeStream, h', if_false, Bool.false_eq_true]
      exact ih (processUnit st u)

theorem addText_images (st : StreamState) (s : String) :
    (addText st s).image_files = st.image_files := by
  unfold addText; split <;> rfl

theorem processUnit_images (st : StreamState) (u : StreamUnit) :
    (processUnit st u).image_files = st.image_files
    ∨ (processUnit st u).image_files
        = st.image_files ++ [imageFileName st.image_files.length] := by
  cases u with
  | rawString s => exact Or.inl (addText_images st s)
  | chunkNoCandidates t =>
    refine Or.inl ?_
    cases t with
    | some s => exact addText_images st s
    | none => rfl
  | chunkEmptyContent t =>
    refine Or.inl ?_
    cases t with
    | some s => exact addText_images st s
    | none => rfl
  | imagePart m => exact Or.inr rfl
  | textPart s => exact Or.inl (addText_images st s)
  | otherPart => exact Or.inl rfl
  | decodeErrorChunk raw =>
    refine Or.inl ?_
    cases raw with
    | none =>
      simp only [processUnit]
      split <;> rfl
    | some r =>
      simp only [processUnit]
      split <;> rfl
  | processErrorChunk => exact Or.inl rfl

theorem consume_images_append :
    ∀ (units : List StreamUnit) (st : StreamState),
      ∃ t, (consumeStream st units).image_files = st.image_files ++ t := by
  intro units
  induction units with
  | nil => intro st; exact ⟨[], by simp [consumeStream]⟩
  | cons u us ih =>
    intro st
    by_cases h : st.aborted = true
    · rw [consume_of_aborted st h]; exact ⟨[], by simp⟩
    · have h' : st.aborted = false := by simpa using h
      simp only [consumeStream, h', if_false, Bool.false_eq_true]
      obtain ⟨t, ht⟩ := ih (processUnit st u)
      rcases processUnit_images st u with hi | hi
      · exact ⟨t, by rw [ht, hi]⟩
      · exact ⟨imageFileName st.image_files.length :: t, by
          rw [ht, hi, List.append_assoc]; rfl⟩

/-- The canonical image-file list: `image_0.jpg, …, image_{n-1}.jpg`. -/
def imageNames (n : Nat) : List String := (List.range n).map imageFileName

theorem imageNames_length (n : Nat) : (imageNames n).length = n := by
  unfold imageNames
  rw [List.length_map, List.length_range]

theorem imageNames_snoc (n : Nat) :
    imageNames n ++ [imageFileName n] = imageNames (n + 1) := by
  unfold imageNames
  rw [List.range_succ, List.map_append]
  rfl

theorem consume_images_canonical :
    ∀ (units : List StreamUnit) (st : StreamState),
      (∃ n, st.image_files = imageNames n) →
      ∃ m, (consumeStream st units).image_files = imageNames m := by
  intro units
  induction units with
  | nil => intro st h; simpa [consumeStream] using h
  | cons u us ih =>
    intro st h
    by_cases ha : st.aborted = true
    · rw [consume_of_aborted st ha]
      cases us with
      | nil => exact h
      | cons v vs => exact h
    · have ha' : st.aborted = false := by simpa using ha
      simp only [consumeStream, ha', if_false, Bool.false_eq_true]
      apply ih
      obtain ⟨n, hn⟩ := h
      rcases processUnit_images st u with hi | hi
      · exact ⟨n, by rw [hi, hn]⟩
      · refine ⟨n + 1, ?_⟩
        rw [hi, hn]
        have : (imageNames n).length = n := imageNames_length n
        rw [this, imageNames_snoc]

/-! ### Retry-loop lemmas -/

theorem retryAux_fst :
    ∀ (l : List (Option GenResult)) (used slept : Nat),
      (retryAux l used slept).1 = List.findSome? (Option.filter retrySuccessG) l := by
  intro l
  induction l with
  | nil => intro used slept; rfl
  | cons r rest ih =>
    intro used slept
    cases r with
    | none =>
      simp only [retryAux, retrySuccessO, Bool.false_eq_true, if_false,
        List.findSome?, Option.filter]
      exact ih _ _
    | some g =>
      cases hg : retrySuccessG g with
      | true =>
        simp [retryAux, retrySuccessO, hg, List.findSome?, Option.filter]
      | false =>
        simp only [retryAux, retrySuccessO, hg, Bool.false_eq_true, if_false,
          List.findSome?, Option.filter]
        exact ih _ _

theorem restarts_eq_flag (units : List StreamUnit) :
    restartsGeneration units
      = (consumeStream initStreamState units).contains_image_description := by
  unfold restartsGeneration
  cases hf : (consumeStream initStreamState units).contains_image_description <;> simp [hf]

theorem string_mk_ne_empty {l : List Char} (h : l ≠ []) : String.mk l ≠ "" := by
  intro hc
  apply h
  have h2 := congrArg String.data hc
  exact h2

theorem collectCompleteStoryL_cases (raw : List Char) :
    collectCompleteStoryL raw ≠ [] ∨ collectCompleteStoryL raw = fallbackCleanL raw := by
  simp only [collectCompleteStoryL]
  split
  · exact Or.inr rfl
  · next h =>
    refine Or.inl (fun hc => h ?_)
    rw [hc]
    rfl

/-! ### Claim theorems -/

/-- Claim C1: the Orchestrator's primary acceptance predicate (the negation of
`needs_regeneration` at `main_generator.py` line 304) succeeds exactly when the
segment count is at least 6 and the image count is at least the segment count;
it accepts 8 segments with 8 images and rejects 5 segments regardless of image
count; and the retry-loop check (line 383) accepts exactly when the segment
count is at least 6 and the image count covers 80% of the segments. -/
theorem C1_acceptance_predicate :
    (∀ sc ic : Nat, primaryAccept sc ic = true ↔ (min_segments ≤ sc ∧ sc ≤ ic))
    ∧ primaryAccept 8 8 = true
    ∧ (∀ ic : Nat, primaryAccept 5 ic = false)
    ∧ (∀ sc ic : Nat, retryAccept sc ic = true
        ↔ (min_segments ≤ sc ∧ 4 * sc ≤ 5 * ic)) := by
  refine ⟨?_, by decide, ?_, ?_⟩
  · intro sc ic
    simp only [primaryAccept, needsRegeneration, min_segments, Bool.not_eq_true',
      Bool.or_eq_false_iff, decide_eq_false_iff_not, Nat.not_lt]
  · intro ic
    simp [primaryAccept, needsRegeneration, min_segments]
  · intro sc ic
    simp [retryAccept, min_segments]

def badChunk : StreamUnit := .decodeErrorChunk none

/-- A stream whose fifth unit is the fifth undecodable chunk (carrying raw
salvageable text), followed by a unit that would add more text. -/
def fiveErrorStream : List StreamUnit :=
  [badChunk, badChunk, badChunk, badChunk,
   .decodeErrorChunk (some "pre```x```post"), .textPart "tail"]

/-- The same stream with only four undecodable chunks. -/
def fourErrorStream : List StreamUnit :=
  [badChunk, badChunk, badChunk, badChunk, .textPart "tail"]

/-- Claim C2 (evaluation at the failing input): with four decode errors the
whole stream is processed and the fallback is not invoked, as the claim says;
but at the fifth decode error the code only aborts the stream and salvages the
raw text (stripping fenced blocks) — the non-streaming fallback request is
never issued either, contradicting the claim (and the code's own
"falling back to non-streaming mode" message): the `break` at
`main_generator.py` line 237 skips the `except` branch (lines 242-261) that
alone could call it. -/
theorem C2_decode_threshold_no_fallback :
    (runStreamPhase fourErrorStream false).state.aborted = false
    ∧ (runStreamPhase fourErrorStream false).state.story_text = "tail"
    ∧ (runStreamPhase fourErrorStream false).fallback_invoked = false
    ∧ (runStreamPhase fiveErrorStream false).state.json_errors = 5
    ∧ (runStreamPhase fiveErrorStream false).state.aborted = true
    ∧ (runStreamPhase fiveErrorStream false).state.story_text = "prepost"
    ∧ (runStreamPhase fiveErrorStream false).fallback_invoked = false := by
  decide

/-- Two text chunks that split the image-description marker across the chunk
boundary. -/
def c3SplitUnits : List StreamUnit :=
  [.textPart "**Image Desc", .textPart "ription:**"]

/-- Claim C3 counterexample: an attempt whose accumulated text contains the
literal marker `**Image Description:**` — split across two chunks — and yet no
restart happens, because the code scans each chunk's text in isolation
(`main_generator.py` lines 221-222, 271-275). -/
theorem C3_counterexample_split_marker :
    strContains imgDescMarker (consumeStream initStreamState c3SplitUnits).story_text = true
    ∧ restartsGeneration c3SplitUnits = false := by
  decide

/-- Claim C3 (amended): for a stream with no undecodable chunks, the
Orchestrator restarts the entire generation request exactly when some single
chunk's text contains the literal marker `**Image Description:**`. -/
theorem C3_restart_iff_chunk_marker (units : List StreamUnit)
    (h : ∀ u ∈ units, isDecodeError u = false) :
    restartsGeneration units = true ↔ ∃ u ∈ units, unitMarker u = true := by
  rw [restarts_eq_flag units, (consume_flag_of_clean units initStreamState h rfl).1]
  simp [initStreamState, List.any_eq_true]

def c3MarkerUnits : List StreamUnit :=
  [.textPart "intro **Image Description:** a cat"]

theorem C3_restart_iff_chunk_marker_witness :
    (∀ u ∈ c3MarkerUnits, isDecodeError u = false)
    ∧ (restartsGeneration c3MarkerUnits = true
        ↔ ∃ u ∈ c3MarkerUnits, unitMarker u = true) :=
  ⟨by decide, C3_restart_iff_chunk_marker c3MarkerUnits (by decide)⟩

/-- An attempt outcome with non-empty story text but a single image: it fails
the `>= 4` image test on every call. -/
def c4FailAttempt : GenResult :=
  { story_text := "partial story", image_files := ["image_0.jpg"],
    temp_dir := "", contains_image_description := false }

/-- The attempt source that yields `c4FailAttempt` on every call. -/
def c4FailFun : Nat → Option GenResult := fun _ => some c4FailAttempt

/-- Claim C4 counterexample: when every attempt fails the acceptance check,
`retry_story_generation` returns `None` — not a best-partial record with
non-null story text — even though every attempt carried non-empty story text
(`story_generator.py` lines 218-219). -/
theorem C4_counterexample_no_partial_result :
    (retry_story_generation c4FailFun).1 = none
    ∧ c4FailAttempt.story_text ≠ "" := by
  decide

/-- Claim C4 (amended): when every attempt fails the acceptance check,
`retry_story_generation` terminates after exactly the maximum 5 attempts,
sleeping the fixed 7-unit delay between consecutive attempts (4 sleeps, 28
units in total — not exponential backoff), and returns `None` without raising. -/
theorem C4_exhaustion_returns_none (f : Nat → Option GenResult)
    (h : ∀ k, k < max_retries → retrySuccessO (f k) = false) :
    retry_story_generation f = (none, 5, 28) := by
  have h0 := h 0 (by decide)
  have h1 := h 1 (by decide)
  have h2 := h 2 (by decide)
  have h3 := h 3 (by decide)
  have h4 := h 4 (by decide)
  show retryAux ((List.range 5).map f) 0 0 = (none, 5, 28)
  rw [show List.range 5 = [0, 1, 2, 3, 4] from rfl]
  simp only [List.map_cons, List.map_nil]
  simp [retryAux, h0, h1, h2, h3, h4, retry_delay]

theorem C4_exhaustion_returns_none_witness :
    (∀ k, k < max_retries → retrySuccessO (c4FailFun k) = false)
    ∧ retry_story_generation c4FailFun = (none, 5, 28) :=
  ⟨fun _ _ => (by decide : retrySuccessO (some c4FailAttempt) = false),
   C4_exhaustion_returns_none c4FailFun
     (fun _ _ => (by decide : retrySuccessO (some c4FailAttempt) = false))⟩

/-- Claim C5 counterexample: the non-empty input `"**bold**"` makes the
Completeness Evaluator return the empty string — the tier-4 filter drops the
short bold-only line and the raw-text fallback then erases the bold pair
entirely (`story_generator.py` lines 355-356, 417-423). -/
theorem C5_counterexample_bold_input :
    collect_complete_story "**bold**" = "" ∧ "**bold**" ≠ "" := by
  decide

/-- Claim C5 (amended): for every input, the Completeness Evaluator's full-text
output is either non-empty or equal to the best-effort cleanup of the raw
input (bold pairs and code fences stripped, whitespace collapsed); the
fallback is returned whenever the cleaned text is empty, but the fallback can
itself be empty, so empty output for non-empty input is possible. -/
theorem C5_fallback_or_nonempty (raw : String) :
    collect_complete_story raw ≠ "" ∨ collect_complete_story raw = fallbackClean raw := by
  rcases collectCompleteStoryL_cases raw.data with h | h
  · exact Or.inl (string_mk_ne_empty h)
  · exact Or.inr (congrArg String.mk h)

/-- Claim C6: the Completeness Evaluator's segment cleaning is idempotent —
cleaning an already-cleaned segment returns it unchanged. -/
theorem C6_cleaning_idempotent (s : String) :
    cleanSegment (cleanSegment s) = cleanSegment s :=
  congrArg String.mk (cleanSegmentL_idem s.data)

/-- The spec's end-to-end example input. -/
def c7Input : String :=
  "**Story:** A fox met a bear. **Scene 2:** They built a raft. **Image:** raft.png"

/-- Claim C7 counterexample: on the spec's example input the Evaluator does not
produce the two claimed segments — the tier-1 loop works line by line, and the
whole example is one line, so the `**Scene 2:**` marker never starts a new
segment (`story_generator.py` lines 255-260). -/
theorem C7_counterexample_two_segments :
    collect_complete_story_segments c7Input
      ≠ ["A fox met a bear.", "They built a raft."] := by
  decide

/-- Claim C7 (amended): on the spec's example input the tier-1 path is selected
but produces exactly one raw segment — everything after `**Story:**`, scene and
image markers included; only the full-text cleaning then strips the markers and
drops the image reference, yielding "A fox met a bear. They built a raft.". -/
theorem C7_tier1_single_segment :
    collect_complete_story_segments c7Input
      = ["A fox met a bear. **Scene 2:** They built a raft. **Image:** raft.png"]
    ∧ collect_complete_story c7Input = "A fox met a bear. They built a raft." := by
  decide

/-- Claim C8: within a single stream-consumption pass the image-file list only
grows — after any prefix of the stream it is a leading segment of the final
list — and the files are named sequentially `image_0.jpg, image_1.jpg, …`, each
new file carrying the image count at the moment it is written
(`main_generator.py` lines 202-212). -/
theorem C8_images_append_only_sequential (units : List StreamUnit) (k : Nat) :
    (∃ t, (consumeStream initStreamState units).image_files
          = (consumeStream initStreamState (units.take k)).image_files ++ t)
    ∧ (consumeStream initStreamState units).image_files
        = imageNames (consumeStream initStreamState units).image_files.length := by
  constructor
  · have hsplit : units = units.take k ++ units.drop k :=
      (List.take_append_drop k units).symm
    nth_rewrite 1 [hsplit]
    rw [consume_append]
    exact consume_images_append (units.drop k) _
  · obtain ⟨m, hm⟩ := consume_images_canonical units initStreamState ⟨0, rfl⟩
    rw [hm, imageNames_length]

/-- Claim C9: `retry_story_generation` returns a result exactly when some
attempt among the first 5 produced non-empty story text and at least 4 image
files — namely the first such attempt — and `None` when no attempt did
(`story_generator.py` lines 196-219). -/
theorem C9_retry_success_characterization (f : Nat → Option GenResult) :
    (retry_story_generation f).1
      = List.findSome? (fun k => Option.filter retrySuccessG (f k))
          (List.range max_retries) := by
  show (retryAux ((List.range max_retries).map f) 0 0).1 = _
  rw [retryAux_fst, List.findSome?_map]
  rfl

/-- Claim C10: in the regeneration loop, when a retry attempt passes the
6-segment / 80%-coverage acceptance check, the story text is replaced by the
retry's text while the image list is replaced only when the retry produced at
least one image — otherwise the previously collected images are kept
(`main_generator.py` lines 383-389). -/
theorem C10_regen_update_frame (st : RegenState) (rt : String) (ri : List String)
    (h : retryAccept (collect_complete_story_segments rt).length ri.length = true) :
    regenStep st rt ri
      = { story_text := rt,
          image_files := if ri.isEmpty then st.image_files else ri,
          needs_regeneration := false } := by
  have hrt : rt ≠ "" := by
    intro he
    subst he
    rw [show (collect_complete_story_segments "").length = 0 from rfl] at h
    simp [retryAccept, min_segments] at h
  unfold regenStep
  rw [if_pos hrt, if_pos h]

/-- A retry text with 7 paragraph segments (tier-3 parse) and 6 images. -/
def c10RetryText : String := "story\n\nA\n\nB\n\nC\n\nD\n\nE\n\nF"
def c10Images : List String := ["i0", "i1", "i2", "i3", "i4", "i5"]

theorem C10_regen_update_frame_witness :
    retryAccept (collect_complete_story_segments c10RetryText).length
        c10Images.length = true
    ∧ regenStep { story_text := "old", image_files := ["old_img"],
                  needs_regeneration := true } c10RetryText c10Images
      = { story_text := c10RetryText,
          image_files := if c10Images.isEmpty then ["old_img"] else c10Images,
          needs_regeneration := false } :=
  ⟨by decide,
   C10_regen_update_frame
     { story_text := "old", image_files := ["old_img"], needs_regeneration := true }
     c10RetryText c10Images (by decide)⟩

end Pipeline
